import Mathlib

/-!
Verification development for the drizzle-sample-schema repository.

The repository ships declarative relational-schema fixtures for two SQL
dialects (PostgreSQL and MySQL).  The fixtures are embedded below as plain
data.  The schema-metadata model and its validation rules (builder
operations, whole-schema validator, finalize) are described by the
repository specification but their implementation is not part of the
shipped sources, so they are modelled from the specification text.
-/

namespace SchemaModel

/-- Modelled from the spec: the five referential actions a ForeignKey may
carry for on-delete and on-update. -/
inductive RefAction
  | cascade
  | restrict
  | setNull
  | setDefault
  | noAction
deriving DecidableEq, Repr

/-- Modelled from the spec: a named, typed field of a table.  The logical
type is kept as an opaque string tag; nullability, default specifier and the
column-level uniqueness flag are explicit. -/
structure Column where
  name : String
  ctype : String
  nullable : Bool := true
  dflt : Option String := none
  uniq : Bool := false
deriving DecidableEq, Repr

/-- Column builder mirroring the fixtures' chained `.notNull()` modifier. -/
def Column.notNull (c : Column) : Column := { c with nullable := false }

/-- Column builder mirroring the fixtures' chained `.default(...)`,
`.defaultNow()`, `.$defaultFn(...)` and `.onUpdateNow()` modifiers. -/
def Column.withDefault (c : Column) (d : String) : Column := { c with dflt := some d }

/-- Column builder mirroring the fixtures' chained `.unique()` modifier. -/
def Column.asUnique (c : Column) : Column := { c with uniq := true }

/-- Plain column of a given name and type, nullable by default as in the
fixtures. -/
def col (name ctype : String) : Column := { name := name, ctype := ctype }

/-- Modelled from the spec: a named unique constraint holding an ordered
list of columns. -/
structure UniqueConstraint where
  name : String
  columns : List String
deriving DecidableEq, Repr

/-- Modelled from the spec: a named check constraint; the boolean predicate
expression is stored opaquely, the model records only which columns it
references. -/
structure CheckConstraint where
  name : String
  columns : List String
  expr : String
deriving DecidableEq, Repr

/-- Modelled from the spec: a named, ordered list of columns with a
uniqueness flag and an optional opaque predicate for a restricted index. -/
structure IndexDef where
  name : String
  columns : List String
  uniq : Bool := false
  whereClause : Option String := none
deriving DecidableEq, Repr

/-- Modelled from the spec: a named relation within a namespace, with its
ordered column sequence, an optional primary key (an ordered list of column
names), secondary constraints and index descriptors. -/
structure Table where
  nsp : String
  name : String
  columns : List Column
  primaryKey : Option (List String) := none
  uniques : List UniqueConstraint := []
  checks : List CheckConstraint := []
  indexes : List IndexDef := []
deriving DecidableEq, Repr

/-- Modelled from the spec: a reference from an ordered list of columns on a
source table to an ordered list of columns on a target table, with the two
referential actions.  Tables are identified by (namespace, name) pairs. -/
structure ForeignKey where
  sourceNs : String
  sourceTable : String
  sourceColumns : List String
  targetNs : String
  targetTable : String
  targetColumns : List String
  onDelete : RefAction := .noAction
  onUpdate : RefAction := .noAction
deriving DecidableEq, Repr

/-- Modelled from the spec: cardinality of an ORM-level relationship. -/
inductive Cardinality
  | oneToOne
  | oneToMany
  | manyToOne
deriving DecidableEq, Repr

/-- Modelled from the spec: a directional association between two tables,
optionally disambiguated by a relation-name tag. -/
structure Relationship where
  fromNs : String
  fromTable : String
  toNs : String
  toTable : String
  cardinality : Cardinality
  relationName : Option String := none
deriving DecidableEq, Repr

/-- Modelled from the spec: the builder state, the top-level container
owning all namespaces, tables, foreign keys and relationships. -/
structure Schema where
  namespaces : List String := []
  tables : List Table := []
  foreignKeys : List ForeignKey := []
  relationships : List Relationship := []
deriving DecidableEq, Repr

/-- Modelled from the spec: the error taxonomy (kinds, not exception
types).  `InvalidPrimaryKey` reports a violation of the PrimaryKey
invariant (declared but empty, or a column appearing twice). -/
inductive SchemaError
  | DuplicateNamespace (name : String)
  | DuplicateTableName (nsp name : String)
  | DuplicateColumnName (nsp tbl colName : String)
  | UnknownColumnReference (nsp tbl colName : String)
  | InvalidPrimaryKey (nsp tbl : String)
  | ForeignKeyLengthMismatch (fk : ForeignKey)
  | ForeignKeyTargetNotUnique (fk : ForeignKey)
  | ForeignKeySetNullOnNonNullable (fk : ForeignKey)
  | UnpairedRelationName (r : Relationship)
  | AmbiguousRelationship (r : Relationship)
  | SelfReferenceRequiresRelationName (r : Relationship)
  | RedundantUniqueConstraint (nsp tbl : String)
deriving DecidableEq, Repr

/-- The names of a table's columns, in declaration order. -/
def Table.colNames (t : Table) : List String := t.columns.map Column.name

/-- Look a column up by name. -/
def Table.findCol (t : Table) (n : String) : Option Column :=
  t.columns.find? (fun c => c.name == n)

/-- Order-insensitive equality of two column-name lists, the "exact set
match" of the spec. -/
def sameSet (a b : List String) : Bool :=
  a.all (fun x => b.contains x) && b.all (fun x => a.contains x)

/-- Modelled from the spec: table identity is resolved by the
(namespace, table-name) pair, never by name alone. -/
def Schema.lookupTable (s : Schema) (nsp name : String) : Option Table :=
  s.tables.find? (fun t => t.nsp == nsp && t.name == name)

/-- All unique scopes of a table: the primary key, declared unique
constraints, column-level uniqueness flags and unique indexes. -/
def Table.uniqueScopes (t : Table) : List (List String) :=
  (match t.primaryKey with | some pk => [pk] | none => []) ++
    t.uniques.map UniqueConstraint.columns ++
    (t.columns.filter Column.uniq).map (fun c => [c.name]) ++
    (t.indexes.filter IndexDef.uniq).map IndexDef.columns

/-- Modelled from the spec: the target column list of a foreign key must be
a unique key (primary key or unique constraint) on the target table,
compared as a set. -/
def Schema.fkTargetOk (s : Schema) (fk : ForeignKey) : Bool :=
  match s.lookupTable fk.targetNs fk.targetTable with
  | some t => t.uniqueScopes.any (fun cols => sameSet cols fk.targetColumns)
  | none => false

/-- Every source column of the foreign key resolves on the source table and
is nullable. -/
def Schema.fkSourceNullableOk (s : Schema) (fk : ForeignKey) : Bool :=
  match s.lookupTable fk.sourceNs fk.sourceTable with
  | some t => fk.sourceColumns.all (fun cn =>
      match t.findCol cn with
      | some c => c.nullable
      | none => false)
  | none => false

/-- The foreign key uses the set-null action on delete or on update. -/
def ForeignKey.usesSetNull (fk : ForeignKey) : Bool :=
  fk.onDelete == .setNull || fk.onUpdate == .setNull

/-- Modelled from the spec: the per-foreign-key validation performed by
`defineForeignKey` — column-list length equality, target uniqueness, and
the set-null nullability rule, in that order. -/
def Schema.fkError (s : Schema) (fk : ForeignKey) : Option SchemaError :=
  if fk.sourceColumns.length != fk.targetColumns.length then
    some (.ForeignKeyLengthMismatch fk)
  else if !(s.fkTargetOk fk) then
    some (.ForeignKeyTargetNotUnique fk)
  else if fk.usesSetNull && !(s.fkSourceNullableOk fk) then
    some (.ForeignKeySetNullOnNonNullable fk)
  else
    none

/-- Modelled from the spec: `defineForeignKey` registers a validated foreign
key or fails fast with the first structural error. -/
def Schema.defineForeignKey (s : Schema) (fk : ForeignKey) : Except SchemaError Schema :=
  match s.fkError fk with
  | some e => .error e
  | none => .ok { s with foreignKeys := s.foreignKeys ++ [fk] }

/-- Modelled from the spec: `defineNamespace` registers a namespace name or
fails with `DuplicateNamespace`. -/
def Schema.defineNamespace (s : Schema) (n : String) : Except SchemaError Schema :=
  if s.namespaces.contains n then .error (.DuplicateNamespace n)
  else .ok { s with namespaces := s.namespaces ++ [n] }

/-- First column name that appears twice in the table's column sequence. -/
def Table.dupColumn (t : Table) : Option String :=
  t.colNames.find? (fun c => t.colNames.count c > 1)

/-- All column names referenced by the primary key, a unique constraint, a
check constraint or an index that are missing from the column sequence. -/
def Table.missingRefs (t : Table) : List String :=
  let known := t.colNames
  ((match t.primaryKey with | some pk => pk | none => []) ++
      (t.uniques.map UniqueConstraint.columns).flatten ++
      (t.checks.map CheckConstraint.columns).flatten ++
      (t.indexes.map IndexDef.columns).flatten).filter
    (fun c => !known.contains c)

/-- Modelled from the spec: the PrimaryKey invariant — when declared, an
ordered, non-empty list in which no column appears twice. -/
def Table.pkOk (t : Table) : Bool :=
  match t.primaryKey with
  | none => true
  | some pk => !pk.isEmpty && pk.all (fun c => pk.count c == 1)

/-- Modelled from the spec: the validation `defineTable` performs —
table-name uniqueness in the namespace, column-name uniqueness, existence
of every referenced column, and the primary-key invariant. -/
def Schema.tableError (s : Schema) (t : Table) : Option SchemaError :=
  if (s.lookupTable t.nsp t.name).isSome then
    some (.DuplicateTableName t.nsp t.name)
  else
    match t.dupColumn with
    | some c => some (.DuplicateColumnName t.nsp t.name c)
    | none =>
      match t.missingRefs with
      | c :: _ => some (.UnknownColumnReference t.nsp t.name c)
      | [] =>
        if !t.pkOk then some (.InvalidPrimaryKey t.nsp t.name) else none

/-- Modelled from the spec: `defineTable` registers the table under its
namespace or fails fast. -/
def Schema.defineTable (s : Schema) (t : Table) : Except SchemaError Schema :=
  match s.tableError t with
  | some e => .error e
  | none => .ok { s with tables := s.tables ++ [t] }

/-- The two relationships connect the same ordered pair of tables. -/
def Relationship.sameDirPair (r1 r2 : Relationship) : Bool :=
  r1.fromNs == r2.fromNs && r1.fromTable == r2.fromTable &&
    r1.toNs == r2.toNs && r1.toTable == r2.toTable

/-- Modelled from the spec: `defineRelationship` rejects a second untagged
relationship in the same direction between the same pair of tables. -/
def Schema.relationshipError (s : Schema) (r : Relationship) : Option SchemaError :=
  if r.relationName.isNone &&
      s.relationships.any (fun r2 => r2.relationName.isNone && r2.sameDirPair r) then
    some (.AmbiguousRelationship r)
  else
    none

/-- Modelled from the spec: `defineRelationship` registers the relationship
or fails with `AmbiguousRelationship`; relation-name pairing is deferred to
`finalize`. -/
def Schema.defineRelationship (s : Schema) (r : Relationship) : Except SchemaError Schema :=
  match s.relationshipError r with
  | some e => .error e
  | none => .ok { s with relationships := s.relationships ++ [r] }

/-- Modelled from the spec: every relation-name tag used on one side of a
pairing must have exactly one counterpart using the same tag on the inverse
side. -/
def Schema.unpairedErrors (s : Schema) : List SchemaError :=
  (s.relationships.filter (fun r => r.relationName.isSome &&
      (s.relationships.filter (fun r2 => r2 != r &&
          r2.relationName == r.relationName &&
          r2.fromNs == r.toNs && r2.fromTable == r.toTable &&
          r2.toNs == r.fromNs && r2.toTable == r.fromTable)).length != 1)).map
    (fun r => .UnpairedRelationName r)

/-- Modelled from the spec: untagged self-referential relationships are
rejected at finalize. -/
def Schema.selfRefErrors (s : Schema) : List SchemaError :=
  (s.relationships.filter (fun r =>
      r.fromNs == r.toNs && r.fromTable == r.toTable && r.relationName.isNone)).map
    (fun r => .SelfReferenceRequiresRelationName r)

/-- Whole-schema re-validation of each table's column references and
primary-key invariant, all findings accumulated. -/
def Schema.tableCheckErrors (s : Schema) : List SchemaError :=
  (s.tables.map (fun t =>
      t.missingRefs.map (fun c => SchemaError.UnknownColumnReference t.nsp t.name c) ++
        (if !t.pkOk then [SchemaError.InvalidPrimaryKey t.nsp t.name] else []))).flatten

/-- Whole-schema re-validation of every foreign key's target: the target
table exists and the target-column set matches a unique scope exactly. -/
def Schema.fkFinalizeErrors (s : Schema) : List SchemaError :=
  (s.foreignKeys.filter (fun fk => !(s.fkTargetOk fk))).map
    (fun fk => .ForeignKeyTargetNotUnique fk)

/-- Some two distinct unique scopes of the list cover the identical column
set. -/
def hasDupSet : List (List String) → Bool
  | [] => false
  | x :: xs => xs.any (fun y => sameSet x y) || hasDupSet xs

/-- Modelled from the spec: warning-level finding — two distinct unique
constraints (including the primary key) on one table cover the identical
column set. -/
def Schema.redundantUniqueWarnings (s : Schema) : List SchemaError :=
  (s.tables.filter (fun t => hasDupSet t.uniqueScopes)).map
    (fun t => .RedundantUniqueConstraint t.nsp t.name)

/-- Modelled from the spec: every blocking violation found by the
whole-schema validator, all accumulated before reporting. -/
def Schema.validationErrors (s : Schema) : List SchemaError :=
  s.tableCheckErrors ++ s.fkFinalizeErrors ++ s.unpairedErrors ++ s.selfRefErrors

/-- Modelled from the spec: the immutable Schema snapshot returned by
`finalize`, exposing read-only traversal. -/
structure FinalSchema where
  namespaces : List String
  tables : List Table
  foreignKeys : List ForeignKey
  relationships : List Relationship
deriving DecidableEq, Repr

/-- Lexicographic comparison of character lists by code point. -/
def charListLe : List Char → List Char → Bool
  | [], _ => true
  | _ :: _, [] => false
  | c :: cs, d :: ds =>
    c.toNat < d.toNat || (c.toNat == d.toNat && charListLe cs ds)

/-- String comparison by code points. -/
def strLe (a b : String) : Bool := charListLe a.data b.data

/-- Table ordering key used when the snapshot normalises table order. -/
def tableLe (t1 t2 : Table) : Bool :=
  if t1.nsp == t2.nsp then strLe t1.name t2.name else strLe t1.nsp t2.nsp

/-- Insert a table into a key-ordered table list. -/
def insertTable (t : Table) : List Table → List Table
  | [] => [t]
  | u :: us => if tableLe t u then t :: u :: us else u :: insertTable t us

/-- Sort a table list by key order. -/
def sortTables : List Table → List Table
  | [] => []
  | t :: ts => insertTable t (sortTables ts)

/-- Build the snapshot; tables are normalised to key order, everything else
is preserved. -/
def Schema.toFinal (s : Schema) : FinalSchema :=
  ⟨s.namespaces, sortTables s.tables, s.foreignKeys, s.relationships⟩

/-- Modelled from the spec: `finalize` either returns the warnings together
with a fully validated immutable snapshot, or fails with the aggregated
list of every violation found. -/
def Schema.finalize (s : Schema) : Except (List SchemaError) (List SchemaError × FinalSchema) :=
  if s.validationErrors.isEmpty then .ok (s.redundantUniqueWarnings, s.toFinal)
  else .error s.validationErrors

/-- Re-derive the declarative specification from a finalized snapshot. -/
def FinalSchema.deriveSpec (fs : FinalSchema) : Schema :=
  ⟨fs.namespaces, fs.tables, fs.foreignKeys, fs.relationships⟩

/-- Structural equivalence of two declarative specifications: equality up
to reordering of the namespace, table, foreign-key and relationship lists;
everything inside a table (column sequence, composite-key column order) is
compared by plain equality, so semantically ordered data is preserved. -/
def SpecEquiv (s1 s2 : Schema) : Prop :=
  s1.namespaces.Perm s2.namespaces ∧ s1.tables.Perm s2.tables ∧
    s1.foreignKeys.Perm s2.foreignKeys ∧ s1.relationships.Perm s2.relationships

/-- Read-only traversal: the relationships leaving a table, optionally
filtered by relation-name tag. -/
def FinalSchema.relationshipsFor (fs : FinalSchema) (nsp tbl : String)
    (tag : Option String) : List Relationship :=
  fs.relationships.filter (fun r => r.fromNs == nsp && r.fromTable == tbl &&
    (tag.isNone || r.relationName == tag))

/-- Effective nullability of a column in the finalized model: a column that
is part of the primary key is implicitly non-nullable regardless of its own
nullability flag. -/
def Table.effectiveNullable (t : Table) (cn : String) : Bool :=
  (match t.findCol cn with
    | some c => c.nullable
    | none => false) &&
    !(match t.primaryKey with
      | some pk => pk.contains cn
      | none => false)

/-- Decidable equality of builder results. -/
instance {ε α : Type} [DecidableEq ε] [DecidableEq α] : DecidableEq (Except ε α)
  | .ok a, .ok b => if h : a = b then .isTrue (by rw [h]) else .isFalse (by simp [h])
  | .error a, .error b => if h : a = b then .isTrue (by rw [h]) else .isFalse (by simp [h])
  | .ok _, .error _ => .isFalse (by simp)
  | .error _, .ok _ => .isFalse (by simp)

/-! Embeddings of the repository fixtures.  Tables defined through the
dialect-default builders (`pgTable` / `mysqlTable`) live in the default
namespace, written `"public"`. -/

namespace PgComposite

/-- src/drizzle/postgresql/composite-keys/schema.ts: `userRoles`. -/
def userRoles : Table := {
  nsp := "public", name := "user_roles",
  columns := [
    (col "user_id" "integer").notNull,
    (col "role_id" "integer").notNull,
    (col "assigned_at" "timestamp").withDefault "now()",
    col "assigned_by" "integer"],
  primaryKey := some ["user_id", "role_id"] }

/-- src/drizzle/postgresql/composite-keys/schema.ts: `orderItems`. -/
def orderItems : Table := {
  nsp := "public", name := "order_items",
  columns := [
    (col "order_id" "integer").notNull,
    (col "product_id" "integer").notNull,
    (col "quantity" "integer").notNull,
    (col "unit_price" "integer").notNull,
    (col "created_at" "timestamp").withDefault "now()"],
  primaryKey := some ["order_id", "product_id"] }

/-- src/drizzle/postgresql/composite-keys/schema.ts: `translations`. -/
def translations : Table := {
  nsp := "public", name := "translations",
  columns := [
    (col "entity_id" "integer").notNull,
    (col "language_code" "text").notNull,
    (col "title" "text").notNull,
    col "description" "text",
    (col "updated_at" "timestamp").withDefault "now()"],
  primaryKey := some ["entity_id", "language_code"] }

/-- src/drizzle/postgresql/composite-keys/schema.ts: `sensorData`, the
time-series table with composite primary key (device_id, timestamp). -/
def sensorData : Table := {
  nsp := "public", name := "sensor_data",
  columns := [
    (col "device_id" "text").notNull,
    (col "timestamp" "timestamp").notNull,
    col "temperature" "integer",
    col "humidity" "integer",
    col "battery_level" "integer"],
  primaryKey := some ["device_id", "timestamp"] }

/-- src/drizzle/postgresql/composite-keys/schema.ts:
`userProjectPermissions`, the three-column composite primary key. -/
def userProjectPermissions : Table := {
  nsp := "public", name := "user_project_permissions",
  columns := [
    (col "user_id" "integer").notNull,
    (col "project_id" "integer").notNull,
    (col "permission" "text").notNull,
    (col "granted_at" "timestamp").withDefault "now()",
    col "granted_by" "integer"],
  primaryKey := some ["user_id", "project_id", "permission"] }

/-- src/drizzle/postgresql/composite-keys/schema.ts: `users`. -/
def users : Table := {
  nsp := "public", name := "users",
  columns := [
    (col "id" "integer").notNull,
    (col "name" "text").notNull,
    (col "email" "text").notNull,
    (col "created_at" "timestamp").withDefault "now()"],
  primaryKey := some ["id"] }

/-- src/drizzle/postgresql/composite-keys/schema.ts: `roles`. -/
def roles : Table := {
  nsp := "public", name := "roles",
  columns := [
    (col "id" "integer").notNull,
    (col "name" "text").notNull,
    col "description" "text"],
  primaryKey := some ["id"] }

/-- The composite-keys PostgreSQL fixture assembled as one declarative
specification. -/
def schema : Schema := {
  namespaces := ["public"],
  tables := [userRoles, orderItems, translations, sensorData,
    userProjectPermissions, users, roles] }

end PgComposite

namespace UnnamedPart

/-- src/unnamed/part_000: `projectUsers`. -/
def projectUsers : Table := {
  nsp := "public", name := "project_users",
  columns := [
    (col "project_id" "int").notNull,
    (col "user_id" "int").notNull],
  primaryKey := some ["project_id", "user_id"] }

/-- src/unnamed/part_000: `projectTasks`. -/
def projectTasks : Table := {
  nsp := "public", name := "project_tasks",
  columns := [
    (col "project_id" "int").notNull,
    (col "user_id" "int").notNull,
    (col "task_id" "int").notNull] }

/-- src/unnamed/part_000: the foreign-key descriptor of `projectTasks`,
(project_id, user_id) referencing both columns of the composite primary key
of `projectUsers`; treated as a real ForeignKey with default actions. -/
def projectTasksFk : ForeignKey := {
  sourceNs := "public", sourceTable := "project_tasks",
  sourceColumns := ["project_id", "user_id"],
  targetNs := "public", targetTable := "project_users",
  targetColumns := ["project_id", "user_id"] }

/-- The two tables of src/unnamed/part_000, before the foreign key is
added. -/
def schemaNoFk : Schema := {
  namespaces := ["public"],
  tables := [projectUsers, projectTasks] }

/-- The full src/unnamed/part_000 specification. -/
def schema : Schema := { schemaNoFk with foreignKeys := [projectTasksFk] }

end UnnamedPart

namespace PgAdv

/-- src/drizzle/postgresql/advanced/schema.ts: `authUsers` (auth.users). -/
def authUsers : Table := {
  nsp := "auth", name := "users",
  columns := [
    ((col "id" "uuid").notNull).withDefault "gen_random_uuid()",
    ((col "email" "varchar(255)").notNull).asUnique,
    (col "password_hash" "text").notNull,
    ((col "is_email_verified" "boolean").withDefault "false").notNull,
    col "email_verification_token" "text",
    col "password_reset_token" "text",
    col "password_reset_expires_at" "timestamp",
    col "last_login_at" "timestamp",
    ((col "login_attempts" "integer").withDefault "0").notNull,
    col "locked_until" "timestamp",
    ((col "created_at" "timestamp").withDefault "now()").notNull,
    ((col "updated_at" "timestamp").withDefault "now()").notNull],
  primaryKey := some ["id"],
  checks := [⟨"auth_users_login_attempts_check", ["login_attempts"],
    "login_attempts >= 0 AND login_attempts <= 10"⟩],
  indexes := [
    { name := "auth_users_email_idx", columns := ["email"], uniq := true },
    { name := "auth_users_verification_token_idx", columns := ["email_verification_token"] },
    { name := "auth_users_reset_token_idx", columns := ["password_reset_token"] },
    { name := "auth_users_locked_accounts_idx", columns := ["locked_until"],
      whereClause := some "locked_until > NOW()" }] }

/-- src/drizzle/postgresql/advanced/schema.ts: `authSessions`
(auth.sessions). -/
def authSessions : Table := {
  nsp := "auth", name := "sessions",
  columns := [
    ((col "id" "uuid").notNull).withDefault "gen_random_uuid()",
    (col "user_id" "uuid").notNull,
    ((col "token" "text").notNull).asUnique,
    (col "expires_at" "timestamp").notNull,
    col "ip_address" "inet",
    col "user_agent" "text",
    ((col "is_active" "boolean").withDefault "true").notNull,
    ((col "created_at" "timestamp").withDefault "now()").notNull],
  primaryKey := some ["id"],
  checks := [⟨"auth_sessions_expiration_check", ["expires_at", "created_at"],
    "expires_at > created_at"⟩],
  indexes := [
    { name := "auth_sessions_user_id_idx", columns := ["user_id"] },
    { name := "auth_sessions_token_idx", columns := ["token"], uniq := true },
    { name := "auth_sessions_active_idx", columns := ["user_id", "expires_at"],
      whereClause := some "is_active = true AND expires_at > NOW()" }] }

/-- src/drizzle/postgresql/advanced/schema.ts: `publicEvents`
(public.events). -/
def publicEvents : Table := {
  nsp := "public", name := "events",
  columns := [
    (col "id" "serial").notNull,
    (col "title" "varchar(255)").notNull,
    col "description" "text",
    (col "start_date" "date").notNull,
    (col "end_date" "date").notNull,
    col "start_time" "timestamp",
    col "end_time" "timestamp",
    col "min_price" "decimal(10,2)",
    col "max_price" "decimal(10,2)",
    col "min_participants" "integer",
    col "max_participants" "integer",
    col "min_age" "integer",
    col "max_age" "integer",
    col "location" "text",
    col "organizer_id" "uuid",
    ((col "current_participants" "integer").withDefault "0").notNull,
    ((col "is_public" "boolean").withDefault "true").notNull,
    col "tags" "text[]",
    col "metadata" "jsonb",
    ((col "created_at" "timestamp").withDefault "now()").notNull,
    ((col "updated_at" "timestamp").withDefault "now()").notNull],
  primaryKey := some ["id"],
  checks := [
    ⟨"events_participants_check", ["current_participants", "max_participants"],
      "current_participants >= 0 AND (max_participants IS NULL OR current_participants <= max_participants)"⟩,
    ⟨"events_max_participants_check", ["max_participants"],
      "max_participants IS NULL OR max_participants > 0"⟩,
    ⟨"events_date_range_check", ["start_date", "end_date"], "end_date >= start_date"⟩,
    ⟨"events_time_range_check", ["start_time", "end_time"],
      "end_time IS NULL OR start_time IS NULL OR end_time >= start_time"⟩,
    ⟨"events_price_range_check", ["min_price", "max_price"],
      "max_price IS NULL OR min_price IS NULL OR max_price >= min_price"⟩,
    ⟨"events_age_range_check", ["min_age", "max_age"],
      "max_age IS NULL OR min_age IS NULL OR max_age >= min_age"⟩],
  indexes := [
    { name := "events_date_range_idx", columns := ["start_date", "end_date"] },
    { name := "events_time_range_idx", columns := ["start_time", "end_time"] },
    { name := "events_organizer_idx", columns := ["organizer_id"] },
    { name := "events_public_idx", columns := ["is_public"],
      whereClause := some "is_public = true" },
    { name := "events_tags_idx", columns := ["tags"] },
    { name := "events_metadata_idx", columns := ["metadata"] }] }

/-- src/drizzle/postgresql/advanced/schema.ts: `publicBookings`
(public.bookings). -/
def publicBookings : Table := {
  nsp := "public", name := "bookings",
  columns := [
    (col "id" "serial").notNull,
    (col "event_id" "integer").notNull,
    (col "user_id" "uuid").notNull,
    (col "booking_start_time" "timestamptz").notNull,
    (col "booking_end_time" "timestamptz").notNull,
    (col "participant_count" "integer").notNull,
    (col "total_price" "decimal(10,2)").notNull,
    ((col "status" "varchar(20)").withDefault "pending").notNull,
    col "notes" "text",
    ((col "created_at" "timestamp").withDefault "now()").notNull,
    ((col "updated_at" "timestamp").withDefault "now()").notNull],
  primaryKey := some ["id"],
  uniques := [⟨"bookings_event_user_time_unique",
    ["event_id", "user_id", "booking_start_time"]⟩],
  checks := [
    ⟨"bookings_participant_count_check", ["participant_count"], "participant_count > 0"⟩,
    ⟨"bookings_total_price_check", ["total_price"], "total_price >= 0"⟩,
    ⟨"bookings_time_range_check", ["booking_start_time", "booking_end_time"],
      "booking_end_time > booking_start_time"⟩],
  indexes := [
    { name := "bookings_event_user_idx", columns := ["event_id", "user_id"] },
    { name := "bookings_user_idx", columns := ["user_id"] },
    { name := "bookings_time_range_idx", columns := ["booking_start_time", "booking_end_time"] },
    { name := "bookings_status_idx", columns := ["status"] }] }

/-- src/drizzle/postgresql/advanced/schema.ts: `analyticsPageViews`
(analytics.page_views). -/
def analyticsPageViews : Table := {
  nsp := "analytics", name := "page_views",
  columns := [
    (col "id" "bigint").notNull,
    col "user_id" "uuid",
    col "session_id" "uuid",
    (col "url" "text").notNull,
    col "referrer" "text",
    col "user_agent" "text",
    col "ip_address" "inet",
    col "country_code" "varchar(2)",
    col "duration" "interval",
    ((col "viewed_at" "timestamp").withDefault "now()").notNull],
  primaryKey := some ["id"],
  indexes := [
    { name := "analytics_page_views_user_id_idx", columns := ["user_id"] },
    { name := "analytics_page_views_session_id_idx", columns := ["session_id"] },
    { name := "analytics_page_views_url_idx", columns := ["url"] },
    { name := "analytics_page_views_viewed_at_idx", columns := ["viewed_at"] },
    { name := "analytics_page_views_country_idx", columns := ["country_code"] },
    { name := "analytics_page_views_url_date_idx", columns := ["url", "viewed_at"] }] }

/-- src/drizzle/postgresql/advanced/schema.ts: `adminAuditLogs`
(admin.audit_logs). -/
def adminAuditLogs : Table := {
  nsp := "admin", name := "audit_logs",
  columns := [
    (col "id" "bigint").notNull,
    col "user_id" "uuid",
    (col "action" "varchar(100)").notNull,
    col "table_name" "varchar(100)",
    col "record_id" "text",
    col "old_values" "jsonb",
    col "new_values" "jsonb",
    col "ip_address" "inet",
    col "user_agent" "text",
    ((col "performed_at" "timestamp").withDefault "now()").notNull],
  primaryKey := some ["id"],
  indexes := [
    { name := "admin_audit_logs_user_id_idx", columns := ["user_id"] },
    { name := "admin_audit_logs_action_idx", columns := ["action"] },
    { name := "admin_audit_logs_table_name_idx", columns := ["table_name"] },
    { name := "admin_audit_logs_performed_at_idx", columns := ["performed_at"] },
    { name := "admin_audit_logs_table_record_idx", columns := ["table_name", "record_id"] }] }

/-- src/drizzle/postgresql/advanced/schema.ts: `publicProjects`
(public.projects). -/
def publicProjects : Table := {
  nsp := "public", name := "projects",
  columns := [
    (col "id" "serial").notNull,
    (col "name" "varchar(255)").notNull,
    (col "owner_id" "uuid").notNull,
    col "manager_id" "uuid",
    ((col "status" "varchar(20)").withDefault "planning").notNull,
    col "budget" "decimal(12,2)",
    col "start_date" "date",
    col "end_date" "date",
    ((col "created_at" "timestamp").withDefault "now()").notNull,
    ((col "updated_at" "timestamp").withDefault "now()").notNull],
  primaryKey := some ["id"],
  checks := [
    ⟨"projects_date_range_check", ["start_date", "end_date"],
      "start_date IS NULL OR end_date IS NULL OR end_date >= start_date"⟩,
    ⟨"projects_budget_check", ["budget"], "budget IS NULL OR budget > 0"⟩],
  indexes := [
    { name := "projects_owner_idx", columns := ["owner_id"] },
    { name := "projects_manager_idx", columns := ["manager_id"] },
    { name := "projects_status_idx", columns := ["status"] }] }

/-- src/drizzle/postgresql/advanced/schema.ts: `publicDepartments`
(public.departments). -/
def publicDepartments : Table := {
  nsp := "public", name := "departments",
  columns := [
    (col "id" "serial").notNull,
    (col "name" "varchar(100)").notNull,
    col "manager_id" "uuid",
    col "parent_department_id" "integer",
    col "budget" "decimal(12,2)",
    ((col "created_at" "timestamp").withDefault "now()").notNull],
  primaryKey := some ["id"],
  indexes := [
    { name := "departments_manager_idx", columns := ["manager_id"] },
    { name := "departments_parent_idx", columns := ["parent_department_id"] }] }

/-- src/drizzle/postgresql/advanced/schema.ts: `publicEmployees`
(public.employees). -/
def publicEmployees : Table := {
  nsp := "public", name := "employees",
  columns := [
    ((col "id" "uuid").notNull).withDefault "gen_random_uuid()",
    (((col "user_id" "uuid").notNull).asUnique),
    ((col "employee_number" "varchar(20)").notNull).asUnique,
    col "department_id" "integer",
    col "manager_id" "uuid",
    col "position" "varchar(100)",
    col "salary" "decimal(10,2)",
    (col "hire_date" "date").notNull,
    col "termination_date" "date",
    ((col "is_active" "boolean").withDefault "true").notNull],
  primaryKey := some ["id"],
  checks := [
    ⟨"employees_salary_check", ["salary"], "salary IS NULL OR salary > 0"⟩,
    ⟨"employees_dates_check", ["termination_date", "hire_date"],
      "termination_date IS NULL OR termination_date >= hire_date"⟩],
  indexes := [
    { name := "employees_user_id_idx", columns := ["user_id"], uniq := true },
    { name := "employees_employee_number_idx", columns := ["employee_number"], uniq := true },
    { name := "employees_department_idx", columns := ["department_id"] },
    { name := "employees_manager_idx", columns := ["manager_id"] },
    { name := "employees_active_idx", columns := ["is_active"],
      whereClause := some "is_active = true" }] }

/-- src/drizzle/postgresql/advanced/schema.ts: the table whose name is near
the PostgreSQL 63-character identifier limit. -/
def publicVeryLong : Table := {
  nsp := "public",
  name := "very_long_table_name_that_is_near_the_postgresql_limit_of_63",
  columns := [
    (col "id" "serial").notNull,
    col "very_long_column_name_that_is_also_near_the_limit" "text"],
  primaryKey := some ["id"] }

/-- src/drizzle/postgresql/advanced/schema.ts: `publicOrder`, the table
using reserved words as identifiers. -/
def publicOrder : Table := {
  nsp := "public", name := "order",
  columns := [
    (col "id" "serial").notNull,
    col "user" "text",
    col "group" "text",
    col "table" "text"],
  primaryKey := some ["id"],
  indexes := [{ name := "order_user_idx", columns := ["user"] }] }

/-- The ten foreign keys declared through `.references(...)` in the
PostgreSQL advanced fixture, in source order. -/
def foreignKeys : List ForeignKey := [
  { sourceNs := "auth", sourceTable := "sessions", sourceColumns := ["user_id"],
    targetNs := "auth", targetTable := "users", targetColumns := ["id"],
    onDelete := .cascade, onUpdate := .cascade },
  { sourceNs := "public", sourceTable := "events", sourceColumns := ["organizer_id"],
    targetNs := "auth", targetTable := "users", targetColumns := ["id"],
    onDelete := .restrict, onUpdate := .cascade },
  { sourceNs := "public", sourceTable := "bookings", sourceColumns := ["event_id"],
    targetNs := "public", targetTable := "events", targetColumns := ["id"],
    onDelete := .cascade, onUpdate := .cascade },
  { sourceNs := "public", sourceTable := "bookings", sourceColumns := ["user_id"],
    targetNs := "auth", targetTable := "users", targetColumns := ["id"],
    onDelete := .restrict, onUpdate := .cascade },
  { sourceNs := "analytics", sourceTable := "page_views", sourceColumns := ["user_id"],
    targetNs := "auth", targetTable := "users", targetColumns := ["id"],
    onDelete := .setNull, onUpdate := .cascade },
  { sourceNs := "analytics", sourceTable := "page_views", sourceColumns := ["session_id"],
    targetNs := "auth", targetTable := "sessions", targetColumns := ["id"],
    onDelete := .setNull, onUpdate := .cascade },
  { sourceNs := "admin", sourceTable := "audit_logs", sourceColumns := ["user_id"],
    targetNs := "auth", targetTable := "users", targetColumns := ["id"],
    onDelete := .restrict, onUpdate := .cascade },
  { sourceNs := "public", sourceTable := "projects", sourceColumns := ["owner_id"],
    targetNs := "auth", targetTable := "users", targetColumns := ["id"],
    onDelete := .restrict, onUpdate := .cascade },
  { sourceNs := "public", sourceTable := "projects", sourceColumns := ["manager_id"],
    targetNs := "auth", targetTable := "users", targetColumns := ["id"],
    onDelete := .setNull, onUpdate := .cascade },
  { sourceNs := "public", sourceTable := "employees", sourceColumns := ["user_id"],
    targetNs := "auth", targetTable := "users", targetColumns := ["id"],
    onDelete := .cascade, onUpdate := .cascade }]

/-- The relationships declared through `relations(...)` in the PostgreSQL
advanced fixture, in source order. -/
def relationships : List Relationship := [
  ⟨"auth", "users", "auth", "sessions", .oneToMany, none⟩,
  ⟨"auth", "users", "public", "events", .oneToMany, none⟩,
  ⟨"auth", "users", "public", "bookings", .oneToMany, none⟩,
  ⟨"auth", "users", "analytics", "page_views", .oneToMany, none⟩,
  ⟨"auth", "users", "admin", "audit_logs", .oneToMany, none⟩,
  ⟨"auth", "users", "public", "projects", .oneToMany, some "ProjectOwner"⟩,
  ⟨"auth", "users", "public", "projects", .oneToMany, some "ProjectManager"⟩,
  ⟨"auth", "users", "public", "employees", .oneToMany, none⟩,
  ⟨"auth", "sessions", "auth", "users", .manyToOne, none⟩,
  ⟨"auth", "sessions", "analytics", "page_views", .oneToMany, none⟩,
  ⟨"public", "events", "auth", "users", .manyToOne, none⟩,
  ⟨"public", "events", "public", "bookings", .oneToMany, none⟩,
  ⟨"public", "bookings", "public", "events", .manyToOne, none⟩,
  ⟨"public", "bookings", "auth", "users", .manyToOne, none⟩,
  ⟨"public", "projects", "auth", "users", .manyToOne, some "ProjectOwner"⟩,
  ⟨"public", "projects", "auth", "users", .manyToOne, some "ProjectManager"⟩,
  ⟨"public", "departments", "public", "departments", .manyToOne, some "DepartmentHierarchy"⟩,
  ⟨"public", "departments", "public", "departments", .oneToMany, some "DepartmentHierarchy"⟩,
  ⟨"public", "departments", "public", "employees", .oneToMany, none⟩,
  ⟨"public", "employees", "auth", "users", .manyToOne, none⟩,
  ⟨"public", "employees", "public", "employees", .manyToOne, some "EmployeeHierarchy"⟩,
  ⟨"public", "employees", "public", "employees", .oneToMany, some "EmployeeHierarchy"⟩,
  ⟨"analytics", "page_views", "auth", "users", .manyToOne, none⟩,
  ⟨"analytics", "page_views", "auth", "sessions", .manyToOne, none⟩,
  ⟨"admin", "audit_logs", "auth", "users", .manyToOne, none⟩]

/-- The full PostgreSQL advanced fixture as one declarative specification. -/
def schema : Schema := {
  namespaces := ["auth", "public", "analytics", "admin"],
  tables := [authUsers, authSessions, publicEvents, publicBookings,
    analyticsPageViews, adminAuditLogs, publicProjects, publicDepartments,
    publicEmployees, publicVeryLong, publicOrder],
  foreignKeys := foreignKeys,
  relationships := relationships }

end PgAdv

namespace MyAdv

/-- src/drizzle/mysql/advanced/schema.ts: `authUsers` (auth.users). -/
def authUsers : Table := {
  nsp := "auth", name := "users",
  columns := [
    ((col "id" "char(36)").notNull).withDefault "crypto.randomUUID()",
    ((col "email" "varchar(255)").notNull).asUnique,
    (col "password_hash" "text").notNull,
    ((col "is_email_verified" "boolean").withDefault "false").notNull,
    col "email_verification_token" "text",
    col "password_reset_token" "text",
    col "password_reset_expires_at" "timestamp",
    col "last_login_at" "timestamp",
    ((col "login_attempts" "int").withDefault "0").notNull,
    col "locked_until" "timestamp",
    ((col "created_at" "timestamp").withDefault "now()").notNull,
    ((col "updated_at" "timestamp").withDefault "now() on update now()").notNull],
  primaryKey := some ["id"],
  checks := [⟨"auth_users_login_attempts_check", ["login_attempts"],
    "login_attempts >= 0 AND login_attempts <= 10"⟩],
  indexes := [
    { name := "auth_users_email_idx", columns := ["email"], uniq := true },
    { name := "auth_users_verification_token_idx", columns := ["email_verification_token"] },
    { name := "auth_users_reset_token_idx", columns := ["password_reset_token"] },
    { name := "auth_users_locked_accounts_idx", columns := ["locked_until"] }] }

/-- src/drizzle/mysql/advanced/schema.ts: `authSessions` (auth.sessions). -/
def authSessions : Table := {
  nsp := "auth", name := "sessions",
  columns := [
    ((col "id" "char(36)").notNull).withDefault "crypto.randomUUID()",
    (col "user_id" "char(36)").notNull,
    ((col "token" "text").notNull).asUnique,
    (col "expires_at" "timestamp").notNull,
    col "ip_address" "varchar(45)",
    col "user_agent" "text",
    ((col "is_active" "boolean").withDefault "true").notNull,
    ((col "created_at" "timestamp").withDefault "now()").notNull],
  primaryKey := some ["id"],
  checks := [⟨"auth_sessions_expiration_check", ["expires_at", "created_at"],
    "expires_at > created_at"⟩],
  indexes := [
    { name := "auth_sessions_user_id_idx", columns := ["user_id"] },
    { name := "auth_sessions_token_idx", columns := ["token"], uniq := true },
    { name := "auth_sessions_active_idx",
      columns := ["user_id", "expires_at", "is_active"] }] }

/-- src/drizzle/mysql/advanced/schema.ts: `publicEvents` (public.events). -/
def publicEvents : Table := {
  nsp := "public", name := "events",
  columns := [
    (col "id" "serial").notNull,
    (col "title" "varchar(255)").notNull,
    col "description" "text",
    (col "start_date" "date").notNull,
    (col "end_date" "date").notNull,
    col "start_time" "timestamp",
    col "end_time" "timestamp",
    col "min_price" "decimal(10,2)",
    col "max_price" "decimal(10,2)",
    col "min_participants" "int",
    col "max_participants" "int",
    col "min_age" "int",
    col "max_age" "int",
    col "location" "text",
    col "organizer_id" "char(36)",
    ((col "current_participants" "int").withDefault "0").notNull,
    ((col "is_public" "boolean").withDefault "true").notNull,
    col "tags" "json",
    col "metadata" "json",
    ((col "created_at" "timestamp").withDefault "now()").notNull,
    ((col "updated_at" "timestamp").withDefault "now() on update now()").notNull],
  primaryKey := some ["id"],
  checks := [
    ⟨"events_participants_check", ["current_participants", "max_participants"],
      "current_participants >= 0 AND (max_participants IS NULL OR current_participants <= max_participants)"⟩,
    ⟨"events_max_participants_check", ["max_participants"],
      "max_participants IS NULL OR max_participants > 0"⟩,
    ⟨"events_date_range_check", ["start_date", "end_date"], "end_date >= start_date"⟩,
    ⟨"events_time_range_check", ["start_time", "end_time"],
      "end_time IS NULL OR start_time IS NULL OR end_time >= start_time"⟩,
    ⟨"events_price_range_check", ["min_price", "max_price"],
      "max_price IS NULL OR min_price IS NULL OR max_price >= min_price"⟩,
    ⟨"events_age_range_check", ["min_age", "max_age"],
      "max_age IS NULL OR min_age IS NULL OR max_age >= min_age"⟩],
  indexes := [
    { name := "events_date_range_idx", columns := ["start_date", "end_date"] },
    { name := "events_time_range_idx", columns := ["start_time", "end_time"] },
    { name := "events_organizer_idx", columns := ["organizer_id"] },
    { name := "events_public_idx", columns := ["is_public"] },
    { name := "events_tags_idx", columns := ["tags"] }] }

/-- src/drizzle/mysql/advanced/schema.ts: `publicBookings`
(public.bookings). -/
def publicBookings : Table := {
  nsp := "public", name := "bookings",
  columns := [
    (col "id" "serial").notNull,
    (col "event_id" "int").notNull,
    (col "user_id" "char(36)").notNull,
    (col "booking_start_time" "timestamp").notNull,
    (col "booking_end_time" "timestamp").notNull,
    (col "participant_count" "int").notNull,
    (col "total_price" "decimal(10,2)").notNull,
    ((col "status" "varchar(20)").withDefault "pending").notNull,
    col "notes" "text",
    ((col "created_at" "timestamp").withDefault "now()").notNull,
    ((col "updated_at" "timestamp").withDefault "now() on update now()").notNull],
  primaryKey := some ["id"],
  uniques := [⟨"bookings_event_user_time_unique",
    ["event_id", "user_id", "booking_start_time"]⟩],
  checks := [
    ⟨"bookings_participant_count_check", ["participant_count"], "participant_count > 0"⟩,
    ⟨"bookings_total_price_check", ["total_price"], "total_price >= 0"⟩,
    ⟨"bookings_time_range_check", ["booking_start_time", "booking_end_time"],
      "booking_end_time > booking_start_time"⟩],
  indexes := [
    { name := "bookings_event_user_idx", columns := ["event_id", "user_id"] },
    { name := "bookings_user_idx", columns := ["user_id"] },
    { name := "bookings_time_range_idx", columns := ["booking_start_time", "booking_end_time"] },
    { name := "bookings_status_idx", columns := ["status"] }] }

/-- src/drizzle/mysql/advanced/schema.ts: `analyticsPageViews`
(analytics.page_views). -/
def analyticsPageViews : Table := {
  nsp := "analytics", name := "page_views",
  columns := [
    (col "id" "bigint").notNull,
    col "user_id" "char(36)",
    col "session_id" "char(36)",
    (col "url" "text").notNull,
    col "referrer" "text",
    col "user_agent" "text",
    col "ip_address" "varchar(45)",
    col "country_code" "varchar(2)",
    col "duration" "time",
    ((col "viewed_at" "timestamp").withDefault "now()").notNull],
  primaryKey := some ["id"],
  indexes := [
    { name := "analytics_page_views_user_id_idx", columns := ["user_id"] },
    { name := "analytics_page_views_session_id_idx", columns := ["session_id"] },
    { name := "analytics_page_views_url_idx", columns := ["url"] },
    { name := "analytics_page_views_viewed_at_idx", columns := ["viewed_at"] },
    { name := "analytics_page_views_country_idx", columns := ["country_code"] },
    { name := "analytics_page_views_url_date_idx", columns := ["url", "viewed_at"] }] }

/-- src/drizzle/mysql/advanced/schema.ts: `adminAuditLogs`
(admin.audit_logs). -/
def adminAuditLogs : Table := {
  nsp := "admin", name := "audit_logs",
  columns := [
    (col "id" "bigint").notNull,
    col "user_id" "char(36)",
    (col "action" "varchar(100)").notNull,
    col "table_name" "varchar(100)",
    col "record_id" "text",
    col "old_values" "json",
    col "new_values" "json",
    col "ip_address" "varchar(45)",
    col "user_agent" "text",
    ((col "performed_at" "timestamp").withDefault "now()").notNull],
  primaryKey := some ["id"],
  indexes := [
    { name := "admin_audit_logs_user_id_idx", columns := ["user_id"] },
    { name := "admin_audit_logs_action_idx", columns := ["action"] },
    { name := "admin_audit_logs_table_name_idx", columns := ["table_name"] },
    { name := "admin_audit_logs_performed_at_idx", columns := ["performed_at"] },
    { name := "admin_audit_logs_table_record_idx", columns := ["table_name", "record_id"] }] }

/-- src/drizzle/mysql/advanced/schema.ts: `publicProjects`
(public.projects). -/
def publicProjects : Table := {
  nsp := "public", name := "projects",
  columns := [
    (col "id" "serial").notNull,
    (col "name" "varchar(255)").notNull,
    (col "owner_id" "char(36)").notNull,
    col "manager_id" "char(36)",
    ((col "status" "varchar(20)").withDefault "planning").notNull,
    col "budget" "decimal(12,2)",
    col "start_date" "date",
    col "end_date" "date",
    ((col "created_at" "timestamp").withDefault "now()").notNull,
    ((col "updated_at" "timestamp").withDefault "now() on update now()").notNull],
  primaryKey := some ["id"],
  checks := [
    ⟨"projects_date_range_check", ["start_date", "end_date"],
      "start_date IS NULL OR end_date IS NULL OR end_date >= start_date"⟩,
    ⟨"projects_budget_check", ["budget"], "budget IS NULL OR budget > 0"⟩],
  indexes := [
    { name := "projects_owner_idx", columns := ["owner_id"] },
    { name := "projects_manager_idx", columns := ["manager_id"] },
    { name := "projects_status_idx", columns := ["status"] }] }

/-- src/drizzle/mysql/advanced/schema.ts: `publicDepartments`
(public.departments). -/
def publicDepartments : Table := {
  nsp := "public", name := "departments",
  columns := [
    (col "id" "serial").notNull,
    (col "name" "varchar(100)").notNull,
    col "manager_id" "char(36)",
    col "parent_department_id" "int",
    col "budget" "decimal(12,2)",
    ((col "created_at" "timestamp").withDefault "now()").notNull],
  primaryKey := some ["id"],
  indexes := [
    { name := "departments_manager_idx", columns := ["manager_id"] },
    { name := "departments_parent_idx", columns := ["parent_department_id"] }] }

/-- src/drizzle/mysql/advanced/schema.ts: `publicEmployees`
(public.employees). -/
def publicEmployees : Table := {
  nsp := "public", name := "employees",
  columns := [
    ((col "id" "char(36)").notNull).withDefault "crypto.randomUUID()",
    (((col "user_id" "char(36)").notNull).asUnique),
    ((col "employee_number" "varchar(20)").notNull).asUnique,
    col "department_id" "int",
    col "manager_id" "char(36)",
    col "position" "varchar(100)",
    col "salary" "decimal(10,2)",
    (col "hire_date" "date").notNull,
    col "termination_date" "date",
    ((col "is_active" "boolean").withDefault "true").notNull],
  primaryKey := some ["id"],
  checks := [
    ⟨"employees_salary_check", ["salary"], "salary IS NULL OR salary > 0"⟩,
    ⟨"employees_dates_check", ["termination_date", "hire_date"],
      "termination_date IS NULL OR termination_date >= hire_date"⟩],
  indexes := [
    { name := "employees_user_id_idx", columns := ["user_id"], uniq := true },
    { name := "employees_employee_number_idx", columns := ["employee_number"], uniq := true },
    { name := "employees_department_idx", columns := ["department_id"] },
    { name := "employees_manager_idx", columns := ["manager_id"] },
    { name := "employees_active_idx", columns := ["is_active"] }] }

/-- src/drizzle/mysql/advanced/schema.ts: the table whose name is near the
MySQL 64-character identifier limit. -/
def publicVeryLong : Table := {
  nsp := "public",
  name := "very_long_table_name_that_is_near_the_mysql_limit_of_64",
  columns := [
    (col "id" "serial").notNull,
    col "very_long_column_name_that_is_also_near_the_limit" "text"],
  primaryKey := some ["id"] }

/-- src/drizzle/mysql/advanced/schema.ts: `publicOrder`, the table using
reserved words as identifiers. -/
def publicOrder : Table := {
  nsp := "public", name := "order",
  columns := [
    (col "id" "serial").notNull,
    col "user" "text",
    col "group" "text",
    col "table" "text"],
  primaryKey := some ["id"],
  indexes := [{ name := "order_user_idx", columns := ["user"] }] }

/-- The ten foreign keys declared through `.references(...)` in the MySQL
advanced fixture, in source order. -/
def foreignKeys : List ForeignKey := [
  { sourceNs := "auth", sourceTable := "sessions", sourceColumns := ["user_id"],
    targetNs := "auth", targetTable := "users", targetColumns := ["id"],
    onDelete := .cascade, onUpdate := .cascade },
  { sourceNs := "public", sourceTable := "events", sourceColumns := ["organizer_id"],
    targetNs := "auth", targetTable := "users", targetColumns := ["id"],
    onDelete := .restrict, onUpdate := .cascade },
  { sourceNs := "public", sourceTable := "bookings", sourceColumns := ["event_id"],
    targetNs := "public", targetTable := "events", targetColumns := ["id"],
    onDelete := .cascade, onUpdate := .cascade },
  { sourceNs := "public", sourceTable := "bookings", sourceColumns := ["user_id"],
    targetNs := "auth", targetTable := "users", targetColumns := ["id"],
    onDelete := .restrict, onUpdate := .cascade },
  { sourceNs := "analytics", sourceTable := "page_views", sourceColumns := ["user_id"],
    targetNs := "auth", targetTable := "users", targetColumns := ["id"],
    onDelete := .setNull, onUpdate := .cascade },
  { sourceNs := "analytics", sourceTable := "page_views", sourceColumns := ["session_id"],
    targetNs := "auth", targetTable := "sessions", targetColumns := ["id"],
    onDelete := .setNull, onUpdate := .cascade },
  { sourceNs := "admin", sourceTable := "audit_logs", sourceColumns := ["user_id"],
    targetNs := "auth", targetTable := "users", targetColumns := ["id"],
    onDelete := .restrict, onUpdate := .cascade },
  { sourceNs := "public", sourceTable := "projects", sourceColumns := ["owner_id"],
    targetNs := "auth", targetTable := "users", targetColumns := ["id"],
    onDelete := .restrict, onUpdate := .cascade },
  { sourceNs := "public", sourceTable := "projects", sourceColumns := ["manager_id"],
    targetNs := "auth", targetTable := "users", targetColumns := ["id"],
    onDelete := .setNull, onUpdate := .cascade },
  { sourceNs := "public", sourceTable := "employees", sourceColumns := ["user_id"],
    targetNs := "auth", targetTable := "users", targetColumns := ["id"],
    onDelete := .cascade, onUpdate := .cascade }]

/-- The relationships declared through `relations(...)` in the MySQL
advanced fixture, in source order. -/
def relationships : List Relationship := [
  ⟨"auth", "users", "auth", "sessions", .oneToMany, none⟩,
  ⟨"auth", "users", "public", "events", .oneToMany, none⟩,
  ⟨"auth", "users", "public", "bookings", .oneToMany, none⟩,
  ⟨"auth", "users", "analytics", "page_views", .oneToMany, none⟩,
  ⟨"auth", "users", "admin", "audit_logs", .oneToMany, none⟩,
  ⟨"auth", "users", "public", "projects", .oneToMany, some "ProjectOwner"⟩,
  ⟨"auth", "users", "public", "projects", .oneToMany, some "ProjectManager"⟩,
  ⟨"auth", "users", "public", "employees", .oneToMany, none⟩,
  ⟨"auth", "sessions", "auth", "users", .manyToOne, none⟩,
  ⟨"auth", "sessions", "analytics", "page_views", .oneToMany, none⟩,
  ⟨"public", "events", "auth", "users", .manyToOne, none⟩,
  ⟨"public", "events", "public", "bookings", .oneToMany, none⟩,
  ⟨"public", "bookings", "public", "events", .manyToOne, none⟩,
  ⟨"public", "bookings", "auth", "users", .manyToOne, none⟩,
  ⟨"public", "projects", "auth", "users", .manyToOne, some "ProjectOwner"⟩,
  ⟨"public", "projects", "auth", "users", .manyToOne, some "ProjectManager"⟩,
  ⟨"public", "departments", "public", "departments", .manyToOne, some "DepartmentHierarchy"⟩,
  ⟨"public", "departments", "public", "departments", .oneToMany, some "DepartmentHierarchy"⟩,
  ⟨"public", "departments", "public", "employees", .oneToMany, none⟩,
  ⟨"public", "employees", "auth", "users", .manyToOne, none⟩,
  ⟨"public", "employees", "public", "employees", .manyToOne, some "EmployeeHierarchy"⟩,
  ⟨"public", "employees", "public", "employees", .oneToMany, some "EmployeeHierarchy"⟩,
  ⟨"analytics", "page_views", "auth", "users", .manyToOne, none⟩,
  ⟨"analytics", "page_views", "auth", "sessions", .manyToOne, none⟩,
  ⟨"admin", "audit_logs", "auth", "users", .manyToOne, none⟩]

/-- The full MySQL advanced fixture as one declarative specification. -/
def schema : Schema := {
  namespaces := ["auth", "public", "analytics", "admin"],
  tables := [authUsers, authSessions, publicEvents, publicBookings,
    analyticsPageViews, adminAuditLogs, publicProjects, publicDepartments,
    publicEmployees, publicVeryLong, publicOrder],
  foreignKeys := foreignKeys,
  relationships := relationships }

end MyAdv

namespace MyComposite

/-- src/drizzle/mysql/composite-keys/schema.ts: `users`. -/
def users : Table := {
  nsp := "public", name := "users",
  columns := [
    ((col "id" "int").notNull).withDefault "autoincrement",
    (col "name" "text").notNull,
    (col "email" "text").notNull,
    (col "created_at" "timestamp").withDefault "now()"],
  primaryKey := some ["id"] }

/-- src/drizzle/mysql/composite-keys/schema.ts: `roles`. -/
def roles : Table := {
  nsp := "public", name := "roles",
  columns := [
    ((col "id" "int").notNull).withDefault "autoincrement",
    (col "name" "text").notNull,
    col "description" "text"],
  primaryKey := some ["id"] }

/-- src/drizzle/mysql/composite-keys/schema.ts: `projects`. -/
def projects : Table := {
  nsp := "public", name := "projects",
  columns := [
    ((col "id" "int").notNull).withDefault "autoincrement",
    (col "name" "text").notNull,
    col "description" "text",
    (col "created_at" "timestamp").withDefault "now()"],
  primaryKey := some ["id"] }

/-- src/drizzle/mysql/composite-keys/schema.ts: `userRoles`; `assigned_by`
is nullable and references users.id with on-delete set-null. -/
def userRoles : Table := {
  nsp := "public", name := "user_roles",
  columns := [
    (col "user_id" "int").notNull,
    (col "role_id" "int").notNull,
    (col "assigned_at" "timestamp").withDefault "now()",
    col "assigned_by" "int"],
  primaryKey := some ["user_id", "role_id"] }

/-- src/drizzle/mysql/composite-keys/schema.ts: `userProjectPermissions`;
`granted_by` is nullable and references users.id with on-delete set-null. -/
def userProjectPermissions : Table := {
  nsp := "public", name := "user_project_permissions",
  columns := [
    (col "user_id" "int").notNull,
    (col "project_id" "int").notNull,
    (col "permission" "text").notNull,
    (col "granted_at" "timestamp").withDefault "now()",
    col "granted_by" "int"],
  primaryKey := some ["user_id", "project_id", "permission"] }

/-- src/drizzle/mysql/composite-keys/schema.ts: the `.references(...)`
declaration on `userRoles.assignedBy` — nullable source column with
on-delete set-null. -/
def assignedByFk : ForeignKey := {
  sourceNs := "public", sourceTable := "user_roles",
  sourceColumns := ["assigned_by"],
  targetNs := "public", targetTable := "users", targetColumns := ["id"],
  onDelete := .setNull }

/-- The foreign keys among the embedded tables of the MySQL composite-keys
fixture, in source order. -/
def foreignKeys : List ForeignKey := [
  { sourceNs := "public", sourceTable := "user_roles", sourceColumns := ["user_id"],
    targetNs := "public", targetTable := "users", targetColumns := ["id"],
    onDelete := .cascade },
  { sourceNs := "public", sourceTable := "user_roles", sourceColumns := ["role_id"],
    targetNs := "public", targetTable := "roles", targetColumns := ["id"],
    onDelete := .cascade },
  assignedByFk,
  { sourceNs := "public", sourceTable := "user_project_permissions", sourceColumns := ["user_id"],
    targetNs := "public", targetTable := "users", targetColumns := ["id"],
    onDelete := .cascade },
  { sourceNs := "public", sourceTable := "user_project_permissions", sourceColumns := ["project_id"],
    targetNs := "public", targetTable := "projects", targetColumns := ["id"],
    onDelete := .cascade },
  { sourceNs := "public", sourceTable := "user_project_permissions", sourceColumns := ["granted_by"],
    targetNs := "public", targetTable := "users", targetColumns := ["id"],
    onDelete := .setNull }]

/-- The embedded portion of the MySQL composite-keys fixture (the tables
userRoles and userProjectPermissions with every table their foreign keys
target), without the foreign keys. -/
def schemaTables : Schema := {
  namespaces := ["public"],
  tables := [users, roles, projects, userRoles, userProjectPermissions] }

/-- The embedded portion of the MySQL composite-keys fixture with its
foreign keys. -/
def schema : Schema := { schemaTables with foreignKeys := foreignKeys }

end MyComposite

/-- Dialect-independent projection of a table: namespace, name, column
names in declaration order, and primary-key columns.  Dialect-level column
types, default/on-update generators, constraint and index details are
dropped. -/
structure LogicalTable where
  nsp : String
  name : String
  cols : List String
  pk : Option (List String)
deriving DecidableEq, Repr

/-- The logical projection of a table. -/
def Table.logical (t : Table) : LogicalTable := ⟨t.nsp, t.name, t.colNames, t.primaryKey⟩

/-- Dialect-independent projection of a whole specification: namespaces,
logical tables, foreign keys (source/target column pairs and actions) and
relationships with their relation-name tags. -/
structure LogicalSchema where
  namespaces : List String
  tables : List LogicalTable
  foreignKeys : List ForeignKey
  relationships : List Relationship
deriving DecidableEq, Repr

/-- The logical projection of a specification. -/
def Schema.logical (s : Schema) : LogicalSchema :=
  ⟨s.namespaces, s.tables.map Table.logical, s.foreignKeys, s.relationships⟩

/-- The names of the tables a specification declares in one namespace. -/
def Schema.tableNamesIn (s : Schema) (nsp : String) : List String :=
  (s.tables.filter (fun t => t.nsp == nsp)).map Table.name

/-- The logical projection of a specification with one table (by name)
left out. -/
def Schema.logicalWithout (s : Schema) (name : String) : LogicalSchema :=
  ⟨s.namespaces, (s.tables.filter (fun t => t.name != name)).map Table.logical,
    s.foreignKeys, s.relationships⟩

/-- Strip the opaque predicate expressions from a table's check constraints
and indexes, leaving the referenced-column lists intact. -/
def Table.eraseExprs (t : Table) : Table :=
  { t with
    checks := t.checks.map (fun c => { c with expr := "" }),
    indexes := t.indexes.map (fun i => { i with whereClause := none }) }

namespace Examples

/-- Test input: a well-shaped foreign key targeting only device_id of
sensor_data, whose composite primary key is (device_id, timestamp). -/
def fkDeviceIdOnly : ForeignKey := {
  sourceNs := "public", sourceTable := "user_roles", sourceColumns := ["assigned_by"],
  targetNs := "public", targetTable := "sensor_data", targetColumns := ["device_id"] }

/-- Test input: the same mismatched target with a malformed source side,
two source columns paired against one target column. -/
def fkDeviceIdShort : ForeignKey := {
  sourceNs := "public", sourceTable := "user_roles", sourceColumns := ["user_id", "role_id"],
  targetNs := "public", targetTable := "sensor_data", targetColumns := ["device_id"] }

/-- Test input: a table whose check constraint references a column that
does not exist on the table. -/
def badTable : Table := {
  nsp := "public", name := "categories",
  columns := [(col "id" "integer").notNull, col "parent_id" "integer"],
  primaryKey := some ["id"],
  checks := [⟨"categories_total_check", ["total"], "total >= 0"⟩] }

/-- Test input: an untagged self-referential relationship on categories. -/
def badSelfRel : Relationship :=
  ⟨"public", "categories", "public", "categories", .manyToOne, none⟩

/-- Test input: a schema carrying two independent violations, a missing
column reference and an untagged self-reference. -/
def twoBad : Schema := {
  namespaces := ["public"], tables := [badTable], relationships := [badSelfRel] }

/-- Test input: a table whose primary key and a declared unique constraint
cover the identical column set. -/
def gadgets : Table := {
  nsp := "public", name := "gadgets",
  columns := [(col "id" "integer").notNull, col "label" "text"],
  primaryKey := some ["id"],
  uniques := [⟨"gadgets_id_unique", ["id"]⟩] }

/-- Test input: a schema whose only finding is a redundant unique
constraint. -/
def warnOnly : Schema := { namespaces := ["public"], tables := [gadgets] }

/-- Test input: an untagged many-to-one reference from projects to users. -/
def untaggedRef : Relationship := ⟨"public", "projects", "auth", "users", .manyToOne, none⟩

/-- Test input: a schema already holding one untagged projects-to-users
relationship. -/
def oneUntagged : Schema := {
  namespaces := ["auth", "public"],
  tables := [PgAdv.authUsers, PgAdv.publicProjects],
  relationships := [untaggedRef] }

/-- The owner reference of the advanced fixtures: projects.owner_id to
auth.users.id. -/
def ownerFk : ForeignKey := {
  sourceNs := "public", sourceTable := "projects", sourceColumns := ["owner_id"],
  targetNs := "auth", targetTable := "users", targetColumns := ["id"],
  onDelete := .restrict, onUpdate := .cascade }

/-- The manager reference of the advanced fixtures: projects.manager_id to
auth.users.id. -/
def managerFk : ForeignKey := {
  sourceNs := "public", sourceTable := "projects", sourceColumns := ["manager_id"],
  targetNs := "auth", targetTable := "users", targetColumns := ["id"],
  onDelete := .setNull, onUpdate := .cascade }

/-- The forward owner relationship of the advanced fixtures, tagged
ProjectOwner. -/
def projOwnerRel : Relationship :=
  ⟨"public", "projects", "auth", "users", .manyToOne, some "ProjectOwner"⟩

/-- The forward manager relationship of the advanced fixtures, tagged
ProjectManager. -/
def projManagerRel : Relationship :=
  ⟨"public", "projects", "auth", "users", .manyToOne, some "ProjectManager"⟩

/-- The inverse owner relationship of the advanced fixtures. -/
def ownedRel : Relationship :=
  ⟨"auth", "users", "public", "projects", .oneToMany, some "ProjectOwner"⟩

/-- The inverse manager relationship of the advanced fixtures. -/
def managedRel : Relationship :=
  ⟨"auth", "users", "public", "projects", .oneToMany, some "ProjectManager"⟩

/-- The projects/users pair of the advanced fixtures with its two pairs of
relationships carrying distinct relation-name tags. -/
def projPair : Schema := {
  namespaces := ["auth", "public"],
  tables := [PgAdv.authUsers, PgAdv.publicProjects],
  foreignKeys := [ownerFk, managerFk],
  relationships := [ownedRel, managedRel, projOwnerRel, projManagerRel] }

/-- Test input: a self-referential table with a foreign key from its own
parent_id to its own primary key. -/
def selfTable : Table := {
  nsp := "public", name := "categories",
  columns := [(col "id" "integer").notNull, col "parent_id" "integer"],
  primaryKey := some ["id"] }

/-- Test input: the self-referential foreign key of `selfTable`. -/
def selfFk : ForeignKey := {
  sourceNs := "public", sourceTable := "categories", sourceColumns := ["parent_id"],
  targetNs := "public", targetTable := "categories", targetColumns := ["id"] }

/-- Test input: the self-referential schema declared with no relation-name
tag. -/
def selfUntagged : Schema := {
  namespaces := ["public"], tables := [selfTable],
  foreignKeys := [selfFk], relationships := [badSelfRel] }

/-- Test input: a set-null foreign key whose source column user_id is
non-nullable. -/
def badSetNullFk : ForeignKey := {
  sourceNs := "public", sourceTable := "user_roles", sourceColumns := ["user_id"],
  targetNs := "public", targetTable := "users", targetColumns := ["id"],
  onDelete := .setNull }

/-- Test input: an empty-but-for-a-namespace builder state. -/
def base : Schema := { namespaces := ["public"] }

/-- Test input: the primary key names a column absent from the table. -/
def pkMissingTable : Table := {
  nsp := "public", name := "widgets_pk",
  columns := [(col "id" "integer").notNull],
  primaryKey := some ["id", "code"] }

/-- Test input: a unique constraint names a column absent from the table. -/
def uniqueMissingTable : Table := {
  nsp := "public", name := "widgets_unique",
  columns := [(col "id" "integer").notNull],
  primaryKey := some ["id"],
  uniques := [⟨"widgets_email_unique", ["email"]⟩] }

/-- Test input: an index names a column absent from the table. -/
def indexMissingTable : Table := {
  nsp := "public", name := "widgets_idx",
  columns := [(col "id" "integer").notNull],
  primaryKey := some ["id"],
  indexes := [{ name := "widgets_missing_idx", columns := ["missing_col"] }] }

/-- Test input: the auth.users table reduced to its key column. -/
def authUsersMini : Table := {
  nsp := "auth", name := "users",
  columns := [(col "id" "uuid").notNull],
  primaryKey := some ["id"] }

/-- Test input: a second table also named users, in the public namespace,
keyed by a different column. -/
def publicUsersMini : Table := {
  nsp := "public", name := "users",
  columns := [(col "uid" "integer").notNull],
  primaryKey := some ["uid"] }

/-- Test input: two identically named tables in different namespaces. -/
def twoUsers : Schema := {
  namespaces := ["auth", "public"], tables := [authUsersMini, publicUsersMini] }

/-- Test input: a foreign key resolved against auth.users. -/
def fkToAuthUsers : ForeignKey := {
  sourceNs := "public", sourceTable := "bookings", sourceColumns := ["user_id"],
  targetNs := "auth", targetTable := "users", targetColumns := ["id"] }

/-- Test input: the same foreign key pointed at public.users instead. -/
def fkToPublicUsers : ForeignKey := {
  sourceNs := "public", sourceTable := "bookings", sourceColumns := ["user_id"],
  targetNs := "public", targetTable := "users", targetColumns := ["id"] }

/-- The cross-namespace booking foreign key of the PostgreSQL advanced
fixture: public.bookings.user_id to auth.users.id. -/
def bookingsUserFk : ForeignKey := {
  sourceNs := "public", sourceTable := "bookings", sourceColumns := ["user_id"],
  targetNs := "auth", targetTable := "users", targetColumns := ["id"],
  onDelete := .restrict, onUpdate := .cascade }

/-- Test input: a composite primary key over a column declared nullable. -/
def nullablePkTable : Table := {
  nsp := "public", name := "pairs",
  columns := [(col "a" "integer").notNull, col "b" "integer"],
  primaryKey := some ["a", "b"] }

/-- Test input: a schema holding `nullablePkTable`. -/
def nullablePkSchema : Schema := { namespaces := ["public"], tables := [nullablePkTable] }

end Examples

/-! Helper lemmas about the builder operations and the whole-schema
validator. -/

/-- Inserting into a key-ordered list is a permutation of consing. -/
theorem insertTable_perm (t : Table) (l : List Table) :
    (insertTable t l).Perm (t :: l) := by
  induction l with
  | nil => exact List.Perm.refl _
  | cons u us ih =>
    unfold insertTable
    by_cases h : tableLe t u
    · simp only [h, if_true]
      exact List.Perm.refl _
    · simp only [h, if_false]
      exact (ih.cons u).trans (List.Perm.swap t u us)

/-- Sorting the table list is a permutation. -/
theorem sortTables_perm (l : List Table) : (sortTables l).Perm l := by
  induction l with
  | nil => exact List.Perm.refl _
  | cons t ts ih =>
    exact (insertTable_perm t (sortTables ts)).trans (ih.cons t)

/-- A successful finalize means no blocking violation was found, and the
reported warnings and snapshot are the validator's. -/
theorem finalize_ok_elim {s : Schema} {w : List SchemaError} {fs : FinalSchema}
    (h : s.finalize = .ok (w, fs)) :
    s.validationErrors = [] ∧ w = s.redundantUniqueWarnings ∧ fs = s.toFinal := by
  unfold Schema.finalize at h
  by_cases hv : s.validationErrors.isEmpty
  · simp only [hv, if_true, Except.ok.injEq, Prod.mk.injEq] at h
    exact ⟨List.isEmpty_iff.mp hv, h.1.symm, h.2.symm⟩
  · simp [hv] at h

/-- A failed finalize reports exactly the aggregated violation list, which
is non-empty. -/
theorem finalize_error_elim {s : Schema} {errs : List SchemaError}
    (h : s.finalize = .error errs) :
    errs = s.validationErrors ∧ s.validationErrors ≠ [] := by
  unfold Schema.finalize at h
  by_cases hv : s.validationErrors.isEmpty
  · simp [hv] at h
  · simp only [hv, Bool.false_eq_true, if_false, Except.error.injEq] at h
    exact ⟨h.symm, fun hnil => hv (by simp [hnil])⟩

/-- An empty aggregated violation list splits into empty component check
results. -/
theorem validationErrors_nil {s : Schema} (h : s.validationErrors = []) :
    s.tableCheckErrors = [] ∧ s.fkFinalizeErrors = [] ∧
      s.unpairedErrors = [] ∧ s.selfRefErrors = [] := by
  unfold Schema.validationErrors at h
  simp only [List.append_eq_nil] at h
  tauto

/-- When the per-table finalize checks are clean, every table has no
missing column reference and a well-formed primary key. -/
theorem table_checks_of_nil {s : Schema} (h : s.tableCheckErrors = []) :
    ∀ t ∈ s.tables, t.missingRefs = [] ∧ t.pkOk = true := by
  intro t ht
  unfold Schema.tableCheckErrors at h
  rw [List.flatten_eq_nil_iff] at h
  have ht2 := h _ (List.mem_map_of_mem _ ht)
  rw [List.append_eq_nil] at ht2
  refine ⟨List.map_eq_nil_iff.mp ht2.1, ?_⟩
  by_cases hpk : t.pkOk
  · exact hpk
  · simp [hpk] at ht2

/-- A well-formed declared primary key is non-empty and has no repeated
column. -/
theorem pk_of_pkOk {t : Table} {pk : List String} (hpk : t.primaryKey = some pk)
    (h : t.pkOk = true) : pk ≠ [] ∧ pk.Nodup := by
  unfold Table.pkOk at h
  rw [hpk] at h
  simp only [Bool.and_eq_true, List.all_eq_true, beq_iff_eq] at h
  refine ⟨by simpa [List.isEmpty_iff] using h.1, ?_⟩
  exact List.nodup_iff_count_eq_one.mpr h.2

/-- When a table has no missing reference, every primary-key column exists
in the column sequence. -/
theorem pk_mem_of_missingRefs_nil {t : Table} {pk : List String}
    (hpk : t.primaryKey = some pk) (h : t.missingRefs = []) :
    ∀ c ∈ pk, c ∈ t.colNames := by
  intro c hc
  unfold Table.missingRefs at h
  rw [List.filter_eq_nil_iff] at h
  have hmem : c ∈ ((match t.primaryKey with | some pk => pk | none => []) ++
      (t.uniques.map UniqueConstraint.columns).flatten ++
      (t.checks.map CheckConstraint.columns).flatten ++
      (t.indexes.map IndexDef.columns).flatten) := by
    rw [hpk]
    exact List.mem_append_left _ (List.mem_append_left _ (List.mem_append_left _ hc))
  have := h c hmem
  simpa using this

/-- A primary-key column is effectively non-nullable. -/
theorem effectiveNullable_of_pk {t : Table} {pk : List String}
    (hpk : t.primaryKey = some pk) {c : String} (hc : c ∈ pk) :
    t.effectiveNullable c = false := by
  unfold Table.effectiveNullable
  rw [hpk]
  simp [hc]

/-- C1: a foreign key whose target-column list, compared as a set, does not
equal the column set of any unique scope (primary key or unique constraint)
of the target table is rejected — `defineForeignKey` fails with
`ForeignKeyTargetNotUnique` on a length-consistent key, and `finalize`
reports `ForeignKeyTargetNotUnique` for any registered such key.  In
particular a foreign key targeting only device_id of sensor_data, whose
composite primary key is (device_id, timestamp), is rejected with
`ForeignKeyTargetNotUnique` when well-shaped and with
`ForeignKeyLengthMismatch` when the source side is malformed, while the
foreign key of src/unnamed/part_000 targeting exactly both columns of the
composite primary key of project_users is accepted. -/
theorem C1_foreign_key_target_must_be_unique :
    (∀ (s : Schema) (fk : ForeignKey),
        fk.sourceColumns.length = fk.targetColumns.length →
        s.fkTargetOk fk = false →
        s.defineForeignKey fk = .error (.ForeignKeyTargetNotUnique fk)) ∧
    (∀ (s : Schema) (fk : ForeignKey), fk ∈ s.foreignKeys →
        s.fkTargetOk fk = false →
        SchemaError.ForeignKeyTargetNotUnique fk ∈ s.validationErrors) ∧
    PgComposite.schema.defineForeignKey Examples.fkDeviceIdOnly =
      .error (.ForeignKeyTargetNotUnique Examples.fkDeviceIdOnly) ∧
    PgComposite.schema.defineForeignKey Examples.fkDeviceIdShort =
      .error (.ForeignKeyLengthMismatch Examples.fkDeviceIdShort) ∧
    UnnamedPart.schemaNoFk.defineForeignKey UnnamedPart.projectTasksFk =
      .ok UnnamedPart.schema := by
  refine ⟨?_, ?_, by decide, by decide, by decide⟩
  · intro s fk hlen htgt
    unfold Schema.defineForeignKey Schema.fkError
    simp [hlen, htgt]
  · intro s fk hmem htgt
    unfold Schema.validationErrors
    have hf : SchemaError.ForeignKeyTargetNotUnique fk ∈ s.fkFinalizeErrors := by
      unfold Schema.fkFinalizeErrors
      exact List.mem_map_of_mem _ (List.mem_filter.mpr ⟨hmem, by simp [htgt]⟩)
    exact List.mem_append_left _ (List.mem_append_left _ (List.mem_append_right _ hf))

/-- Witness for C1: the device_id-only foreign key against the embedded
composite-keys fixture. -/
theorem C1_foreign_key_target_must_be_unique_witness :
    PgComposite.schema.defineForeignKey Examples.fkDeviceIdOnly =
      .error (.ForeignKeyTargetNotUnique Examples.fkDeviceIdOnly) :=
  C1_foreign_key_target_must_be_unique.1 PgComposite.schema Examples.fkDeviceIdOnly
    (by decide) (by decide)

/-- C2: finalize is all-or-nothing — a failure reports the aggregated list
of every violation found (never a partially valid schema), a success
certifies an empty violation list and returns the warnings with the
immutable snapshot, and redundant-unique findings are warning-level: a
schema whose only finding is a redundant unique constraint still finalizes,
with the finding reported.  The concrete schema `twoBad` shows two distinct
violations reported together. -/
theorem C2_finalize_all_or_nothing :
    (∀ (s : Schema) (errs : List SchemaError), s.finalize = .error errs →
        errs = s.validationErrors ∧ errs ≠ []) ∧
    (∀ (s : Schema) (w : List SchemaError) (fs : FinalSchema),
        s.finalize = .ok (w, fs) →
        s.validationErrors = [] ∧ w = s.redundantUniqueWarnings ∧ fs = s.toFinal) ∧
    (∀ s : Schema, s.validationErrors = [] →
        s.finalize = .ok (s.redundantUniqueWarnings, s.toFinal)) ∧
    Examples.twoBad.finalize = .error
      [.UnknownColumnReference "public" "categories" "total",
       .SelfReferenceRequiresRelationName Examples.badSelfRel] ∧
    Examples.warnOnly.finalize =
      .ok ([.RedundantUniqueConstraint "public" "gadgets"], Examples.warnOnly.toFinal) := by
  refine ⟨?_, ?_, ?_, by decide, by decide⟩
  · exact fun s errs h => ((finalize_error_elim h).1 ▸ finalize_error_elim h)
  · exact fun s w fs h => finalize_ok_elim h
  · intro s h
    unfold Schema.finalize
    simp [h]

/-- Witness for C2 at the two-violation schema. -/
theorem C2_finalize_all_or_nothing_witness :
    Examples.twoBad.validationErrors ≠ [] :=
  (C2_finalize_all_or_nothing.1 Examples.twoBad Examples.twoBad.validationErrors
    (by decide)).2

/-- C3: a second untagged relationship in the same direction between the
same pair of tables is rejected with `AmbiguousRelationship`, while the
projects/users pair of the advanced fixture carrying the distinct tags
ProjectOwner and ProjectManager on both directions finalizes successfully
and each relationship is queryable independently by its tag. -/
theorem C3_relationship_disambiguation :
    (∀ (s : Schema) (r : Relationship), r.relationName = none →
        (∃ r2 ∈ s.relationships, r2.relationName = none ∧ r2.sameDirPair r = true) →
        s.defineRelationship r = .error (.AmbiguousRelationship r)) ∧
    Examples.oneUntagged.defineRelationship Examples.untaggedRef =
      .error (.AmbiguousRelationship Examples.untaggedRef) ∧
    Examples.projPair.finalize =
      .ok ([.RedundantUniqueConstraint "auth" "users"], Examples.projPair.toFinal) ∧
    Examples.projPair.toFinal.relationshipsFor "public" "projects" (some "ProjectOwner") =
      [Examples.projOwnerRel] ∧
    Examples.projPair.toFinal.relationshipsFor "public" "projects" (some "ProjectManager") =
      [Examples.projManagerRel] ∧
    Examples.projPair.toFinal.relationshipsFor "auth" "users" (some "ProjectOwner") =
      [Examples.ownedRel] ∧
    Examples.projPair.toFinal.relationshipsFor "auth" "users" (some "ProjectManager") =
      [Examples.managedRel] := by
  refine ⟨?_, by decide, by decide, by decide, by decide, by decide, by decide⟩
  intro s r hr hex
  obtain ⟨r2, hmem, hr2, hpair⟩ := hex
  unfold Schema.defineRelationship Schema.relationshipError
  have hany : s.relationships.any (fun x => x.relationName.isNone && x.sameDirPair r) = true :=
    List.any_eq_true.mpr ⟨r2, hmem, by simp [hr2, hpair]⟩
  simp [hr, hany]

/-- Witness for C3 at the concrete untagged duplicate. -/
theorem C3_relationship_disambiguation_witness :
    Examples.oneUntagged.defineRelationship Examples.untaggedRef =
      .error (.AmbiguousRelationship Examples.untaggedRef) :=
  C3_relationship_disambiguation.1 Examples.oneUntagged Examples.untaggedRef
    rfl ⟨Examples.untaggedRef, by decide, rfl, by decide⟩

/-- C4: an untagged self-referential relationship makes finalize fail, with
`SelfReferenceRequiresRelationName` among the reported violations; in every
successfully finalized schema both directions of a self-reference carry a
tag; the concrete untagged parent_id self-reference is rejected with
exactly that error, while the advanced fixture's self-references tagged
DepartmentHierarchy and EmployeeHierarchy on both directions are
accepted. -/
theorem C4_self_reference_requires_relation_name :
    (∀ (s : Schema) (r : Relationship), r ∈ s.relationships →
        r.fromNs = r.toNs → r.fromTable = r.toTable → r.relationName = none →
        SchemaError.SelfReferenceRequiresRelationName r ∈ s.validationErrors ∧
        ∀ (w : List SchemaError) (fs : FinalSchema), s.finalize ≠ .ok (w, fs)) ∧
    (∀ (s : Schema) (w : List SchemaError) (fs : FinalSchema), s.finalize = .ok (w, fs) →
        ∀ r ∈ s.relationships, r.fromNs = r.toNs → r.fromTable = r.toTable →
          r.relationName.isSome = true) ∧
    Examples.selfUntagged.finalize =
      .error [.SelfReferenceRequiresRelationName Examples.badSelfRel] ∧
    PgAdv.schema.validationErrors = [] ∧
    (⟨"public", "employees", "public", "employees", .manyToOne, some "EmployeeHierarchy"⟩ :
      Relationship) ∈ PgAdv.schema.relationships ∧
    (⟨"public", "employees", "public", "employees", .oneToMany, some "EmployeeHierarchy"⟩ :
      Relationship) ∈ PgAdv.schema.relationships ∧
    (⟨"public", "departments", "public", "departments", .manyToOne, some "DepartmentHierarchy"⟩ :
      Relationship) ∈ PgAdv.schema.relationships ∧
    (⟨"public", "departments", "public", "departments", .oneToMany, some "DepartmentHierarchy"⟩ :
      Relationship) ∈ PgAdv.schema.relationships := by
  refine ⟨?_, ?_, by decide, by decide, by decide, by decide, by decide, by decide⟩
  · intro s r hmem hns htbl htag
    have hself : SchemaError.SelfReferenceRequiresRelationName r ∈ s.selfRefErrors := by
      unfold Schema.selfRefErrors
      exact List.mem_map_of_mem _ (List.mem_filter.mpr ⟨hmem, by simp [hns, htbl, htag]⟩)
    have hval : SchemaError.SelfReferenceRequiresRelationName r ∈ s.validationErrors := by
      unfold Schema.validationErrors
      exact List.mem_append_right _ hself
    refine ⟨hval, ?_⟩
    intro w fs hok
    have := (finalize_ok_elim hok).1
    rw [this] at hval
    exact absurd hval (List.not_mem_nil _)
  · intro s w fs hok r hmem hns htbl
    have hval := (finalize_ok_elim hok).1
    have hself : s.selfRefErrors = [] := (validationErrors_nil hval).2.2.2
    by_cases htag : r.relationName.isSome
    · exact htag
    · exfalso
      have : SchemaError.SelfReferenceRequiresRelationName r ∈ s.selfRefErrors := by
        unfold Schema.selfRefErrors
        refine List.mem_map_of_mem _ (List.mem_filter.mpr ⟨hmem, ?_⟩)
        simp only [Bool.not_eq_true, Option.not_isSome, Option.isNone_iff_eq_none] at htag
        simp [hns, htbl, htag]
      rw [hself] at this
      exact absurd this (List.not_mem_nil _)

/-- Witness for C4 at the concrete untagged self-reference. -/
theorem C4_self_reference_requires_relation_name_witness :
    SchemaError.SelfReferenceRequiresRelationName Examples.badSelfRel ∈
      Examples.selfUntagged.validationErrors :=
  (C4_self_reference_requires_relation_name.1 Examples.selfUntagged Examples.badSelfRel
    (by decide) rfl rfl rfl).1

/-- C5: re-deriving the declarative specification from any successfully
finalized snapshot reproduces an equivalent specification — the same
namespaces, tables (each with its column sequence and composite-key column
order intact), foreign keys and relationships up to list reordering. -/
theorem C5_round_trip (s : Schema) (w : List SchemaError) (fs : FinalSchema)
    (h : s.finalize = .ok (w, fs)) : SpecEquiv fs.deriveSpec s := by
  obtain ⟨-, -, hfs⟩ := finalize_ok_elim h
  subst hfs
  unfold FinalSchema.deriveSpec Schema.toFinal SpecEquiv
  exact ⟨List.Perm.refl _, sortTables_perm _, List.Perm.refl _, List.Perm.refl _⟩

/-- Witness for C5 at the embedded composite-keys fixture. -/
theorem C5_round_trip_witness :
    SpecEquiv PgComposite.schema.toFinal.deriveSpec PgComposite.schema :=
  C5_round_trip PgComposite.schema PgComposite.schema.redundantUniqueWarnings
    PgComposite.schema.toFinal (by decide)

/-- C6: in every successfully finalized schema the snapshot's tables are
the declared tables (so each table, including its primary-key column order,
is preserved), every declared primary key is a non-empty list of existing
columns with no column appearing twice, and every primary-key column is
effectively non-nullable regardless of its own nullability flag — shown
concretely on a composite key over a column declared nullable. -/
theorem C6_composite_pk_invariants :
    (∀ (s : Schema) (w : List SchemaError) (fs : FinalSchema),
        s.finalize = .ok (w, fs) →
        fs.tables.Perm s.tables ∧
        ∀ t ∈ fs.tables, ∀ pk, t.primaryKey = some pk →
          pk ≠ [] ∧ pk.Nodup ∧ (∀ c ∈ pk, c ∈ t.colNames) ∧
          ∀ c ∈ pk, t.effectiveNullable c = false) ∧
    Examples.nullablePkSchema.finalize =
      .ok ([], Examples.nullablePkSchema.toFinal) ∧
    (Examples.nullablePkTable.findCol "b").map Column.nullable = some true ∧
    Examples.nullablePkTable.effectiveNullable "b" = false := by
  refine ⟨?_, by decide, by decide, by decide⟩
  intro s w fs hok
  obtain ⟨hval, -, hfs⟩ := finalize_ok_elim hok
  have hperm : fs.tables.Perm s.tables := by
    rw [hfs]
    exact sortTables_perm _
  refine ⟨hperm, ?_⟩
  intro t ht pk hpk
  have hts : t ∈ s.tables := hperm.mem_iff.mp ht
  have htc := table_checks_of_nil (validationErrors_nil hval).1 t hts
  obtain ⟨hne, hnd⟩ := pk_of_pkOk hpk htc.2
  exact ⟨hne, hnd, pk_mem_of_missingRefs_nil hpk htc.1,
    fun c hc => effectiveNullable_of_pk hpk hc⟩

/-- Witness for C6 at the three-column composite key of the composite-keys
fixture. -/
theorem C6_composite_pk_invariants_witness :
    ["user_id", "project_id", "permission"] ≠ ([] : List String) ∧
    (["user_id", "project_id", "permission"] : List String).Nodup :=
  have h := ((C6_composite_pk_invariants.1 PgComposite.schema
      PgComposite.schema.redundantUniqueWarnings PgComposite.schema.toFinal (by decide)).2
    PgComposite.userProjectPermissions (by decide)
    ["user_id", "project_id", "permission"] (by decide))
  ⟨h.1, h.2.1⟩

/-- C7: a foreign key using the set-null action is accepted by
`defineForeignKey` only when every source column is nullable, and is
rejected with `ForeignKeySetNullOnNonNullable` when an otherwise well-formed
key has a non-nullable source column; concretely the fixture's nullable
assigned_by set-null reference is accepted, a set-null reference rooted at
the non-nullable user_id is rejected, and every foreign key of the
PostgreSQL advanced fixture (including the set-null manager_id reference)
passes the per-key validation. -/
theorem C7_set_null_requires_nullable_sources :
    (∀ (s : Schema) (fk : ForeignKey) (s2 : Schema),
        s.defineForeignKey fk = .ok s2 → fk.usesSetNull = true →
        s.fkSourceNullableOk fk = true) ∧
    (∀ (s : Schema) (fk : ForeignKey),
        fk.sourceColumns.length = fk.targetColumns.length →
        s.fkTargetOk fk = true → fk.usesSetNull = true →
        s.fkSourceNullableOk fk = false →
        s.defineForeignKey fk = .error (.ForeignKeySetNullOnNonNullable fk)) ∧
    MyComposite.schemaTables.defineForeignKey MyComposite.assignedByFk =
      .ok { MyComposite.schemaTables with foreignKeys := [MyComposite.assignedByFk] } ∧
    MyComposite.schemaTables.defineForeignKey Examples.badSetNullFk =
      .error (.ForeignKeySetNullOnNonNullable Examples.badSetNullFk) ∧
    PgAdv.schema.foreignKeys.all (fun fk => (PgAdv.schema.fkError fk).isNone) = true := by
  refine ⟨?_, ?_, by decide, by decide, by decide⟩
  · intro s fk s2 hok hsn
    by_cases hnn : s.fkSourceNullableOk fk
    · exact hnn
    · exfalso
      have hnn2 : s.fkSourceNullableOk fk = false := by
        cases hx : s.fkSourceNullableOk fk
        · rfl
        · exact absurd hx hnn
      unfold Schema.defineForeignKey Schema.fkError at hok
      by_cases h1 : fk.sourceColumns.length != fk.targetColumns.length
      · simp [h1] at hok
      · by_cases h2 : s.fkTargetOk fk
        · simp [h1, h2, hsn, hnn2] at hok
        · have h2f : s.fkTargetOk fk = false := by
            cases hx : s.fkTargetOk fk
            · rfl
            · exact absurd hx h2
          simp [h1, h2f] at hok
  · intro s fk hlen htgt hsn hnn
    unfold Schema.defineForeignKey Schema.fkError
    simp [hlen, htgt, hsn, hnn]

/-- Witness for C7 at the rejected set-null reference. -/
theorem C7_set_null_requires_nullable_sources_witness :
    MyComposite.schemaTables.defineForeignKey Examples.badSetNullFk =
      .error (.ForeignKeySetNullOnNonNullable Examples.badSetNullFk) :=
  C7_set_null_requires_nullable_sources.2.1 MyComposite.schemaTables
    Examples.badSetNullFk rfl (by decide) rfl (by decide)

/-- C8: for a table whose name is fresh and whose column names are unique,
any column referenced by the primary key, a unique constraint, a check
constraint or an index that is missing from the column sequence makes
`defineTable` fail with `UnknownColumnReference` naming a missing column —
shown concretely for each construct; and the opaque predicate expressions
of check constraints and restricted indexes never influence validation:
erasing them leaves the outcome of the table validation unchanged. -/
theorem C8_unknown_column_reference :
    (∀ (s : Schema) (t : Table),
        (s.lookupTable t.nsp t.name).isSome = false →
        t.dupColumn = none →
        t.missingRefs ≠ [] →
        ∃ c ∈ t.missingRefs,
          s.defineTable t = .error (.UnknownColumnReference t.nsp t.name c)) ∧
    (∀ (s : Schema) (t : Table), s.tableError t.eraseExprs = s.tableError t) ∧
    Examples.base.defineTable Examples.pkMissingTable =
      .error (.UnknownColumnReference "public" "widgets_pk" "code") ∧
    Examples.base.defineTable Examples.uniqueMissingTable =
      .error (.UnknownColumnReference "public" "widgets_unique" "email") ∧
    Examples.base.defineTable Examples.badTable =
      .error (.UnknownColumnReference "public" "categories" "total") ∧
    Examples.base.defineTable Examples.indexMissingTable =
      .error (.UnknownColumnReference "public" "widgets_idx" "missing_col") := by
  refine ⟨?_, ?_, by decide, by decide, by decide, by decide⟩
  · intro s t hfresh hdup hmiss
    unfold Schema.defineTable Schema.tableError
    cases hm : t.missingRefs with
    | nil => exact absurd hm hmiss
    | cons c cs =>
      refine ⟨c, by simp [hm], ?_⟩
      simp [hfresh, hdup, hm]
  · intro s t
    have h4 : t.eraseExprs.missingRefs = t.missingRefs := by
      unfold Table.missingRefs
      have hc : t.eraseExprs.checks.map CheckConstraint.columns =
          t.checks.map CheckConstraint.columns := by
        show (t.checks.map _).map _ = _
        rw [List.map_map]
        rfl
      have hi : t.eraseExprs.indexes.map IndexDef.columns =
          t.indexes.map IndexDef.columns := by
        show (t.indexes.map _).map _ = _
        rw [List.map_map]
        rfl
      rw [hc, hi]
      rfl
    unfold Schema.tableError
    rw [h4]
    rfl

/-- Witness for C8 at the check-constraint example. -/
theorem C8_unknown_column_reference_witness :
    ∃ c ∈ Examples.badTable.missingRefs,
      Examples.base.defineTable Examples.badTable =
        .error (.UnknownColumnReference "public" "categories" c) :=
  C8_unknown_column_reference.1 Examples.base Examples.badTable
    (by decide) (by decide) (by decide)

/-- C9: table identity is resolved by the (namespace, table-name) pair —
any successful lookup returns a table with exactly that namespace and name,
a positive target check names a unique scope on the pair-resolved table,
two identically named users tables in different namespaces resolve
independently (the same key list validates against auth.users and fails
against public.users), and the cross-namespace booking foreign key of the
PostgreSQL advanced fixture validates successfully. -/
theorem C9_cross_namespace_resolution :
    (∀ (s : Schema) (nsp n : String) (t : Table),
        s.lookupTable nsp n = some t → t.nsp = nsp ∧ t.name = n) ∧
    (∀ (s : Schema) (fk : ForeignKey), s.fkTargetOk fk = true →
        ∃ t, s.lookupTable fk.targetNs fk.targetTable = some t ∧
          t.nsp = fk.targetNs ∧ t.name = fk.targetTable ∧
          ∃ cols ∈ t.uniqueScopes, sameSet cols fk.targetColumns = true) ∧
    Examples.twoUsers.fkTargetOk Examples.fkToAuthUsers = true ∧
    Examples.twoUsers.fkTargetOk Examples.fkToPublicUsers = false ∧
    Examples.twoUsers.lookupTable "auth" "users" = some Examples.authUsersMini ∧
    Examples.twoUsers.lookupTable "public" "users" = some Examples.publicUsersMini ∧
    Examples.bookingsUserFk ∈ PgAdv.schema.foreignKeys ∧
    PgAdv.schema.fkError Examples.bookingsUserFk = none ∧
    PgAdv.schema.validationErrors = [] := by
  refine ⟨?_, ?_, by decide, by decide, by decide, by decide, by decide, by decide, by decide⟩
  · intro s nsp n t h
    have hp := List.find?_some h
    simp only [Bool.and_eq_true, beq_iff_eq] at hp
    exact hp
  · intro s fk h
    unfold Schema.fkTargetOk at h
    cases hl : s.lookupTable fk.targetNs fk.targetTable with
    | none => rw [hl] at h; exact absurd h (by simp)
    | some t =>
      rw [hl] at h
      obtain ⟨cols, hmem, hss⟩ := List.any_eq_true.mp h
      have hp := List.find?_some hl
      simp only [Bool.and_eq_true, beq_iff_eq] at hp
      exact ⟨t, rfl, hp.1, hp.2, cols, hmem, hss⟩

/-- Witness for C9 at the two identically named tables. -/
theorem C9_cross_namespace_resolution_witness :
    Examples.authUsersMini.nsp = "auth" ∧ Examples.authUsersMini.name = "users" :=
  C9_cross_namespace_resolution.1 Examples.twoUsers "auth" "users"
    Examples.authUsersMini (by decide)

/-- C10 counterexample: the two advanced fixtures do not declare the same
table names per namespace — the public namespace of the PostgreSQL fixture
contains very_long_table_name_that_is_near_the_postgresql_limit_of_63,
which the MySQL fixture does not declare (it has
very_long_table_name_that_is_near_the_mysql_limit_of_64 instead). -/
theorem C10_counterexample :
    PgAdv.schema.tableNamesIn "public" ≠ MyAdv.schema.tableNamesIn "public" ∧
    "very_long_table_name_that_is_near_the_postgresql_limit_of_63" ∈
      PgAdv.schema.tableNamesIn "public" ∧
    "very_long_table_name_that_is_near_the_postgresql_limit_of_63" ∉
      MyAdv.schema.tableNamesIn "public" := by
  exact ⟨by decide, by decide, by decide⟩

/-- C10 amended: excluding the near-limit table, whose name differs between
the dialects, the two advanced fixtures have identical logical projections
— the same namespaces, table names per namespace, column names per table,
primary-key columns, foreign-key source/target column pairs with their
actions, and relationships with their relation-name tags; the two
near-limit tables themselves agree on namespace, column names and primary
key and differ only in table name. -/
theorem C10_amended :
    PgAdv.schema.logicalWithout
        "very_long_table_name_that_is_near_the_postgresql_limit_of_63" =
      MyAdv.schema.logicalWithout
        "very_long_table_name_that_is_near_the_mysql_limit_of_64" ∧
    PgAdv.publicVeryLong.colNames = MyAdv.publicVeryLong.colNames ∧
    PgAdv.publicVeryLong.primaryKey = MyAdv.publicVeryLong.primaryKey ∧
    PgAdv.publicVeryLong.nsp = MyAdv.publicVeryLong.nsp ∧
    PgAdv.publicVeryLong.name ≠ MyAdv.publicVeryLong.name := by
  exact ⟨by decide, rfl, rfl, rfl, by decide⟩

end SchemaModel
